import Mathlib

/-!
Verification of the inventory API's alert subsystem: a shallow embedding of
the Go model `Product` (internal/models), its alert classifier
`GenerateAlert`, the stock-status classifier `GetStockStatus` / `ToResponse`,
and the generator `GenerateAlertsWithConcurrency` (internal/services).
Timestamps (`time.Now()`) are modelled as an explicit `Time` argument; the
storage fetch is modelled as an `Except` value supplied by the caller; the
concurrent fan-out/fan-in is modelled by its sequential denotation (one
evaluation per product, non-nil results collected), since the spec fixes no
collection order.
-/

namespace Inventory

/-- Wall-clock instant, abstract. Go's `time.Time` carries no structure the
alert logic reads, so any inhabited type with decidable equality works. -/
abbrev Time := Nat

/-- Go struct `models.Product` (src/unnamed/part_000). The gorm bookkeeping
fields (`CreatedAt`, `UpdatedAt`, `DeletedAt`) are not read by any of the
alert or stock-status logic and are omitted; `Price` is kept as `Float`
mirroring Go's `float64` but is never computed with. -/
structure Product where
  id : Nat
  name : String
  description : String
  quantity : Int
  price : Float
  category : String

/-- Go struct `models.ProductAlert` (src/unnamed/part_000). -/
structure ProductAlert where
  productId : Nat
  name : String
  category : String
  quantity : Int
  threshold : Int
  severity : String
  message : String
  generatedAt : Time
deriving DecidableEq, Repr

/-- Go struct `models.ProductResponse`, restricted to the fields with logic
behind them (`StockStatus`); the rest are verbatim copies. -/
structure ProductResponse where
  id : Nat
  name : String
  description : String
  quantity : Int
  price : Float
  category : String
  stockStatus : String

/-- Go `func (p *Product) IsLowStock(threshold int) bool`:
`return p.Quantity < threshold`. -/
def Product.IsLowStock (p : Product) (threshold : Int) : Bool :=
  p.quantity < threshold

/-- Go `func (p *Product) GetStockStatus(lowThreshold, criticalThreshold int) string`:
a switch on quantity, first `== 0`, then `<= criticalThreshold`, then
`<= lowThreshold`, default `"normal"`. -/
def Product.GetStockStatus (p : Product) (lowThreshold criticalThreshold : Int) : String :=
  if p.quantity = 0 then "out_of_stock"
  else if p.quantity ≤ criticalThreshold then "critical"
  else if p.quantity ≤ lowThreshold then "low"
  else "normal"

/-- Go `func (p *Product) ToResponse() ProductResponse`: copies the fields
and computes `StockStatus: p.GetStockStatus(5, 2)`. -/
def Product.ToResponse (p : Product) : ProductResponse :=
  { id := p.id
    name := p.name
    description := p.description
    quantity := p.quantity
    price := p.price
    category := p.category
    stockStatus := p.GetStockStatus 5 2 }

/-- Go `func (p *Product) GenerateAlert(threshold int) *ProductAlert`
(src/unnamed/part_000 lines 123-149): returns `nil` unless `IsLowStock`,
otherwise severity/message default to `low` / `"Stock below threshold"`,
overridden to `critical` / `"Product out of stock"` when `Quantity == 0`
and to `high` / `"Critical stock level"` when `Quantity <= 2`. The
`GeneratedAt: time.Now()` field is the explicit `now` argument. -/
def Product.GenerateAlert (p : Product) (threshold : Int) (now : Time) :
    Option ProductAlert :=
  if ¬ p.IsLowStock threshold then none
  else
    let severity := if p.quantity = 0 then "critical"
      else if p.quantity ≤ 2 then "high" else "low"
    let message := if p.quantity = 0 then "Product out of stock"
      else if p.quantity ≤ 2 then "Critical stock level" else "Stock below threshold"
    some { productId := p.id
           name := p.name
           category := p.category
           quantity := p.quantity
           threshold := threshold
           severity := severity
           message := message
           generatedAt := now }

/-- Threshold normalization performed at the top of
`GenerateAlertsWithConcurrency`: `if threshold <= 0 { threshold = 5 }`. -/
def normalizeThreshold (threshold : Int) : Int :=
  if threshold ≤ 0 then 5 else threshold

/-- One evaluation unit per product of the snapshot: the list of results of
`GenerateAlert`, one entry (alert or none) per dispatched goroutine. Its
length is the total number of products evaluated. -/
def evaluationResults (products : List Product) (threshold : Int) (now : Time) :
    List (Option ProductAlert) :=
  products.map (fun p => p.GenerateAlert threshold now)

/-- Go `func (ps *ProductService) GenerateAlertsWithConcurrency(threshold int)
([]models.ProductAlert, error)` (internal/services/product_services.go lines
148-192): normalizes the threshold, fetches all products (modelled by the
`fetchAll` argument; on failure the wrapped store error is returned and
nothing is evaluated), dispatches one evaluation per product and collects
every non-nil alert. The concurrent collection order is unspecified, so the
denotation keeps snapshot order. -/
def GenerateAlertsWithConcurrency (fetchAll : Except String (List Product))
    (threshold : Int) (now : Time) : Except String (List ProductAlert) :=
  let t := normalizeThreshold threshold
  match fetchAll with
  | .error err => .error ("failed to fetch products: " ++ err)
  | .ok products => .ok ((evaluationResults products t now).filterMap id)

/-- Every alert `GenerateAlert` produces copies `ProductID`, `Name`,
`Category` and `Quantity` from the product, stores the evaluation threshold
in `Threshold`, and stamps `GeneratedAt` with the evaluation time. -/
theorem GenerateAlert_fields (p : Product) (t : Int) (now : Time) (a : ProductAlert)
    (h : p.GenerateAlert t now = some a) :
    a.productId = p.id ∧ a.name = p.name ∧ a.category = p.category ∧
    a.quantity = p.quantity ∧ a.threshold = t ∧ a.generatedAt = now := by
  rw [Product.GenerateAlert] at h
  split at h
  · exact Option.noConfusion h
  · injection h with h
    subst h
    exact ⟨rfl, rfl, rfl, rfl, rfl, rfl⟩

/-- Collecting the non-nil entries of the evaluation results is filtering
the snapshot through the evaluator. -/
theorem filterMap_evaluationResults (products : List Product) (t : Int) (now : Time) :
    (evaluationResults products t now).filterMap id =
      products.filterMap (fun p => p.GenerateAlert t now) := by
  rw [evaluationResults, List.filterMap_map]
  rfl

/-- The product ids of the collected alerts form a sublist of the product
ids of the snapshot: each dispatched unit contributes at most one alert,
tagged with its own product's id. -/
theorem alert_ids_sublist (products : List Product) (t : Int) (now : Time) :
    (((evaluationResults products t now).filterMap id).map ProductAlert.productId).Sublist
      (products.map Product.id) := by
  rw [filterMap_evaluationResults]
  induction products with
  | nil => simp
  | cons p ps ih =>
    cases hp : p.GenerateAlert t now with
    | none =>
      rw [List.filterMap_cons_none (f := fun q => Product.GenerateAlert q t now) hp,
        List.map_cons]
      exact ih.cons p.id
    | some a =>
      rw [List.filterMap_cons_some (f := fun q => Product.GenerateAlert q t now) hp,
        List.map_cons, List.map_cons,
        (GenerateAlert_fields p t now a hp).1]
      exact ih.cons₂ p.id

/-- Concrete product used to exercise the classification theorems. -/
def wProdLow : Product :=
  { id := 11, name := "Tablet iPad Pro", description := "", quantity := 3,
    price := 799.99, category := "Electronics" }

/-- C1: for every product with `quantity >= 0` and every `threshold > 0`,
`GenerateAlert` returns no alert when `quantity >= threshold`; a `critical`
"Product out of stock" alert when `quantity == 0`; a `high` "Critical stock
level" alert when `0 < quantity <= 2` and `quantity < threshold`; and a
`low` "Stock below threshold" alert when `2 < quantity < threshold`. -/
theorem C1_classification (p : Product) (t : Int) (now : Time)
    (hq : 0 ≤ p.quantity) (ht : 0 < t) :
    (t ≤ p.quantity → p.GenerateAlert t now = none) ∧
    (p.quantity = 0 → ∃ a, p.GenerateAlert t now = some a ∧
      a.severity = "critical" ∧ a.message = "Product out of stock") ∧
    (0 < p.quantity → p.quantity ≤ 2 → p.quantity < t →
      ∃ a, p.GenerateAlert t now = some a ∧
        a.severity = "high" ∧ a.message = "Critical stock level") ∧
    (2 < p.quantity → p.quantity < t →
      ∃ a, p.GenerateAlert t now = some a ∧
        a.severity = "low" ∧ a.message = "Stock below threshold") := by
  refine ⟨fun hge => ?_, fun h0 => ?_, fun hpos h2 hlt => ?_, fun h2 hlt => ?_⟩ <;>
    simp only [Product.GenerateAlert, Product.IsLowStock, decide_eq_true_eq]
  · rw [if_pos (by omega)]
  · rw [if_neg (by omega)]
    exact ⟨_, rfl, by simp [h0], by simp [h0]⟩
  · rw [if_neg (by omega)]
    exact ⟨_, rfl, by simp [show p.quantity ≠ 0 by omega, h2],
      by simp [show p.quantity ≠ 0 by omega, h2]⟩
  · rw [if_neg (by omega)]
    exact ⟨_, rfl, by simp [show p.quantity ≠ 0 by omega, show ¬ p.quantity ≤ 2 by omega],
      by simp [show p.quantity ≠ 0 by omega, show ¬ p.quantity ≤ 2 by omega]⟩

/-- Witness for C1 at a concrete product in the `low` band. -/
theorem C1_witness :
    0 ≤ wProdLow.quantity ∧ (0:Int) < 5 ∧
    (2 < wProdLow.quantity → wProdLow.quantity < 5 →
      ∃ a, wProdLow.GenerateAlert 5 0 = some a ∧
        a.severity = "low" ∧ a.message = "Stock below threshold") :=
  ⟨by decide, by decide, (C1_classification wProdLow 5 0 (by decide) (by decide)).2.2.2⟩

/-- Concrete out-of-stock product (quantity 0), as the seed's "Router WiFi 6". -/
def wProdZero : Product :=
  { id := 15, name := "Router WiFi 6", description := "", quantity := 0,
    price := 179.99, category := "Electronics" }

/-- C2 counterexample: with a non-positive threshold (here 0) the evaluator
returns no alert for a product with quantity 0, because `IsLowStock`
(`quantity < threshold`) is checked before any severity band; the claim's
"every threshold value, including non-positive thresholds" is false. -/
theorem C2_counterexample :
    wProdZero.quantity = 0 ∧ wProdZero.GenerateAlert 0 0 = none ∧
    ¬ ∃ a, wProdZero.GenerateAlert 0 0 = some a ∧ a.severity = "critical" := by
  refine ⟨rfl, rfl, ?_⟩
  rintro ⟨a, h, -⟩
  exact Option.noConfusion ((rfl : wProdZero.GenerateAlert 0 0 = none).symm.trans h)

/-- C2 (amended): for every product with quantity 0 and every positive
threshold (including thresholds <= 2), the evaluator returns a `critical`
"Product out of stock" alert: the `quantity == 0` band is checked before the
`quantity <= 2` band and the general low-stock case. -/
theorem C2_zero_quantity_critical (p : Product) (t : Int) (now : Time)
    (hq : p.quantity = 0) (ht : 0 < t) :
    ∃ a, p.GenerateAlert t now = some a ∧ a.severity = "critical" ∧
      a.message = "Product out of stock" := by
  simp only [Product.GenerateAlert, Product.IsLowStock, decide_eq_true_eq]
  rw [if_neg (by omega)]
  exact ⟨_, rfl, by simp [hq], by simp [hq]⟩

/-- Witness for the amended C2 at threshold 1 (a threshold <= 2). -/
theorem C2_witness :
    wProdZero.quantity = 0 ∧ (0:Int) < 1 ∧
    ∃ a, wProdZero.GenerateAlert 1 0 = some a ∧ a.severity = "critical" ∧
      a.message = "Product out of stock" :=
  ⟨rfl, by decide, C2_zero_quantity_critical wProdZero 1 0 rfl (by decide)⟩

/-- C3: on a successful fetch the generator evaluates every product of the
snapshot exactly once (one evaluation result per product) and returns a list
of at most as many alerts as there are products. -/
theorem C3_completeness (products : List Product) (threshold : Int) (now : Time) :
    ∃ alerts,
      GenerateAlertsWithConcurrency (Except.ok products) threshold now = Except.ok alerts ∧
      (evaluationResults products (normalizeThreshold threshold) now).length =
        products.length ∧
      alerts.length ≤ products.length := by
  refine ⟨_, rfl, List.length_map products _, ?_⟩
  calc ((evaluationResults products (normalizeThreshold threshold) now).filterMap id).length
      ≤ (evaluationResults products (normalizeThreshold threshold) now).length :=
        List.length_filterMap_le _ _
    _ = products.length := List.length_map products _

/-- C4: a non-positive threshold is normalized to the default 5 before
dispatch, so `generate` with threshold 0 or -3 returns exactly the same
result (same alerts, same threshold field) as with threshold 5, for every
fetch outcome. -/
theorem C4_default_threshold (fetchAll : Except String (List Product)) (now : Time) :
    GenerateAlertsWithConcurrency fetchAll 0 now =
      GenerateAlertsWithConcurrency fetchAll 5 now ∧
    GenerateAlertsWithConcurrency fetchAll (-3) now =
      GenerateAlertsWithConcurrency fetchAll 5 now := by
  constructor <;> rfl

/-- C5: the generator fails exactly when the upstream fetch fails; on a
failed fetch it returns only the wrapped store error (nothing is evaluated,
no alerts are produced), on a successful fetch it returns the collected
alerts of the full snapshot, and a single evaluation never signals an error
(it is total: always none or some alert). -/
theorem C5_error_iff_fetch_fails :
    (∀ (e : String) (t : Int) (now : Time),
      GenerateAlertsWithConcurrency (Except.error e) t now =
        Except.error ("failed to fetch products: " ++ e)) ∧
    (∀ (products : List Product) (t : Int) (now : Time),
      GenerateAlertsWithConcurrency (Except.ok products) t now =
        Except.ok ((evaluationResults products (normalizeThreshold t) now).filterMap id)) ∧
    (∀ (fetchAll : Except String (List Product)) (t : Int) (now : Time),
      (∃ e, GenerateAlertsWithConcurrency fetchAll t now = Except.error e) ↔
        ∃ e, fetchAll = Except.error e) ∧
    (∀ (p : Product) (t : Int) (now : Time),
      p.GenerateAlert t now = none ∨ ∃ a, p.GenerateAlert t now = some a) := by
  refine ⟨fun e t now => rfl, fun products t now => rfl, fun fetchAll t now => ?_, ?_⟩
  · cases fetchAll with
    | error e => exact ⟨fun _ => ⟨e, rfl⟩, fun _ => ⟨_, rfl⟩⟩
    | ok products =>
      constructor
      · rintro ⟨e, h⟩
        exact Except.noConfusion h
      · rintro ⟨e, h⟩
        exact Except.noConfusion h
  · intro p t now
    cases h : p.GenerateAlert t now with
    | none => exact Or.inl rfl
    | some a => exact Or.inr ⟨a, rfl⟩

/-- C9: evaluation is deterministic in `(product, threshold)` up to the
timestamp: two runs at different times both return none, or both return
alerts equal in every field except `generatedAt`. -/
theorem C9_deterministic (p : Product) (t : Int) (n1 n2 : Time) :
    (p.GenerateAlert t n1 = none ∧ p.GenerateAlert t n2 = none) ∨
    (∃ a1 a2, p.GenerateAlert t n1 = some a1 ∧ p.GenerateAlert t n2 = some a2 ∧
      a1.productId = a2.productId ∧ a1.name = a2.name ∧ a1.category = a2.category ∧
      a1.quantity = a2.quantity ∧ a1.threshold = a2.threshold ∧
      a1.severity = a2.severity ∧ a1.message = a2.message) := by
  rw [Product.GenerateAlert, Product.GenerateAlert]
  split
  · exact Or.inl ⟨rfl, rfl⟩
  · exact Or.inr ⟨_, _, rfl, rfl, rfl, rfl, rfl, rfl, rfl, rfl, rfl⟩

/-- C6: when the snapshot's product ids are pairwise distinct, the returned
alert list carries pairwise distinct product ids, hence at most one alert
per distinct product id: each product is evaluated once and contributes at
most one alert tagged with its own id. -/
theorem C6_at_most_one_alert_per_id (products : List Product) (threshold : Int)
    (now : Time) (alerts : List ProductAlert)
    (hids : (products.map Product.id).Nodup)
    (h : GenerateAlertsWithConcurrency (Except.ok products) threshold now =
      Except.ok alerts) :
    (alerts.map ProductAlert.productId).Nodup := by
  have h0 : GenerateAlertsWithConcurrency (Except.ok products) threshold now =
      Except.ok ((evaluationResults products (normalizeThreshold threshold) now).filterMap
        id) := rfl
  rw [h0] at h
  obtain rfl := Except.ok.inj h
  exact hids.sublist (alert_ids_sublist products (normalizeThreshold threshold) now)

/-- Three-product snapshot with distinct ids used by the witnesses. -/
def wSnapshot : List Product := [wProdZero, wProdLow,
  { id := 7, name := "Mouse Inalámbrico", description := "", quantity := 45,
    price := 59.99, category := "Electronics" }]

/-- The alert the evaluator produces for `wProdZero` at threshold 5, time 0. -/
def wAlertZero : ProductAlert :=
  { productId := 15, name := "Router WiFi 6", category := "Electronics", quantity := 0,
    threshold := 5, severity := "critical", message := "Product out of stock",
    generatedAt := 0 }

/-- The alert the evaluator produces for `wProdLow` at threshold 5, time 0. -/
def wAlertLow : ProductAlert :=
  { productId := 11, name := "Tablet iPad Pro", category := "Electronics", quantity := 3,
    threshold := 5, severity := "low", message := "Stock below threshold",
    generatedAt := 0 }

/-- Witness for C6 on the concrete three-product snapshot. -/
theorem C6_witness :
    ((wSnapshot.map Product.id).Nodup) ∧
    (([wAlertZero, wAlertLow].map ProductAlert.productId).Nodup) :=
  ⟨by decide, C6_at_most_one_alert_per_id wSnapshot 5 0 [wAlertZero, wAlertLow]
    (by decide) rfl⟩

/-- C8: every alert copies `product_id`, `name`, `category` and `quantity`
verbatim from the evaluated product and stores the evaluation threshold;
through the generator, that threshold is the normalized one (5 whenever the
caller supplied a non-positive value) and every returned alert matches some
product of the snapshot. -/
theorem C8_field_copying :
    (∀ (p : Product) (t : Int) (now : Time) (a : ProductAlert),
      p.GenerateAlert t now = some a →
        a.productId = p.id ∧ a.name = p.name ∧ a.category = p.category ∧
        a.quantity = p.quantity ∧ a.threshold = t) ∧
    (∀ t : Int, t ≤ 0 → normalizeThreshold t = 5) ∧
    (∀ (products : List Product) (t : Int) (now : Time) (alerts : List ProductAlert),
      GenerateAlertsWithConcurrency (Except.ok products) t now = Except.ok alerts →
        ∀ a ∈ alerts, a.threshold = normalizeThreshold t ∧
          ∃ p ∈ products, a.productId = p.id ∧ a.name = p.name ∧
            a.category = p.category ∧ a.quantity = p.quantity) := by
  refine ⟨fun p t now a h => ?_, fun t ht => ?_, fun products t now alerts h a ha => ?_⟩
  · obtain ⟨h1, h2, h3, h4, h5, -⟩ := GenerateAlert_fields p t now a h
    exact ⟨h1, h2, h3, h4, h5⟩
  · rw [normalizeThreshold, if_pos ht]
  · have h0 : GenerateAlertsWithConcurrency (Except.ok products) t now =
        Except.ok ((evaluationResults products (normalizeThreshold t) now).filterMap
          id) := rfl
    rw [h0] at h
    obtain rfl := Except.ok.inj h
    rw [filterMap_evaluationResults, List.mem_filterMap] at ha
    obtain ⟨p, hp, hgen⟩ := ha
    obtain ⟨h1, h2, h3, h4, h5, -⟩ :=
      GenerateAlert_fields p (normalizeThreshold t) now a hgen
    exact ⟨h5, p, hp, h1, h2, h3, h4⟩

/-- Witness for C8 at the concrete out-of-stock product. -/
theorem C8_witness :
    wAlertZero.productId = wProdZero.id ∧ wAlertZero.name = wProdZero.name ∧
    wAlertZero.category = wProdZero.category ∧
    wAlertZero.quantity = wProdZero.quantity ∧ wAlertZero.threshold = 5 :=
  C8_field_copying.1 wProdZero 5 0 wAlertZero rfl

/-- C10: the public `stock_status` of a product response is computed from
fixed thresholds (low 5, critical 2): `out_of_stock` exactly at quantity 0,
`critical` exactly on 1..2, `low` exactly on 3..5, `normal` exactly above 5;
in particular a product with quantity exactly 5 is reported `low` while the
evaluator produces no alert for it at the default threshold 5. -/
theorem C10_stock_status (p : Product) (now : Time) (hq : 0 ≤ p.quantity) :
    (p.ToResponse.stockStatus = "out_of_stock" ↔ p.quantity = 0) ∧
    (p.ToResponse.stockStatus = "critical" ↔ 1 ≤ p.quantity ∧ p.quantity ≤ 2) ∧
    (p.ToResponse.stockStatus = "low" ↔ 3 ≤ p.quantity ∧ p.quantity ≤ 5) ∧
    (p.ToResponse.stockStatus = "normal" ↔ 5 < p.quantity) ∧
    (p.quantity = 5 → p.ToResponse.stockStatus = "low" ∧ p.GenerateAlert 5 now = none) := by
  have hresp : p.ToResponse.stockStatus = p.GetStockStatus 5 2 := rfl
  rw [hresp, Product.GetStockStatus]
  split_ifs with h1 h2 h3 <;>
    refine ⟨?_, ?_, ?_, ?_, fun h5 => ⟨?_, ?_⟩⟩ <;>
    simp_all [Product.GenerateAlert, Product.IsLowStock] <;>
    omega

/-- Five-unit product used to witness C10. -/
def wProdFive : Product :=
  { id := 99, name := "Five units left", description := "", quantity := 5,
    price := 10.0, category := "Test" }

/-- Witness for C10 at quantity exactly 5. -/
theorem C10_witness :
    0 ≤ wProdFive.quantity ∧
    (wProdFive.ToResponse.stockStatus = "low" ∧ wProdFive.GenerateAlert 5 0 = none) :=
  ⟨by decide, (C10_stock_status wProdFive 0 (by decide)).2.2.2.2 rfl⟩

/-- The 15-product seed snapshot of `scripts/seed/main.go` (ids as assigned
in insertion order; quantities 15, 8, 25, 12, 20, 30, 45, 18, 10, 35, 3, 2,
4, 1, 0; the long description strings are never read by the alert logic and
are left empty). -/
def seedProducts : List Product :=
  [ { id := 1, name := "Laptop Dell XPS 13", description := "", quantity := 15,
      price := 1299.99, category := "Electronics" },
    { id := 2, name := "iPhone 14 Pro", description := "", quantity := 8,
      price := 1099.99, category := "Electronics" },
    { id := 3, name := "Escritorio de Oficina", description := "", quantity := 25,
      price := 299.99, category := "Furniture" },
    { id := 4, name := "Silla Ejecutiva", description := "", quantity := 12,
      price := 199.99, category := "Furniture" },
    { id := 5, name := "Monitor 4K Samsung", description := "", quantity := 20,
      price := 399.99, category := "Electronics" },
    { id := 6, name := "Teclado Mecánico", description := "", quantity := 30,
      price := 129.99, category := "Electronics" },
    { id := 7, name := "Mouse Inalámbrico", description := "", quantity := 45,
      price := 59.99, category := "Electronics" },
    { id := 8, name := "Lámpara LED", description := "", quantity := 18,
      price := 79.99, category := "Lighting" },
    { id := 9, name := "Cafetera Automática", description := "", quantity := 10,
      price := 249.99, category := "Appliances" },
    { id := 10, name := "Auriculares Bluetooth", description := "", quantity := 35,
      price := 199.99, category := "Electronics" },
    { id := 11, name := "Tablet iPad Pro", description := "", quantity := 3,
      price := 799.99, category := "Electronics" },
    { id := 12, name := "Impresora Láser", description := "", quantity := 2,
      price := 349.99, category := "Office Equipment" },
    { id := 13, name := "Webcam HD", description := "", quantity := 4,
      price := 89.99, category := "Electronics" },
    { id := 14, name := "Disco Duro SSD", description := "", quantity := 1,
      price := 149.99, category := "Electronics" },
    { id := 15, name := "Router WiFi 6", description := "", quantity := 0,
      price := 179.99, category := "Electronics" } ]

/-- The alerts the generator returns on the seed snapshot at threshold 5,
time 0: one per product with quantity < 5 (ids 11-15), hence five of them. -/
def seedAlerts : List ProductAlert :=
  [ { productId := 11, name := "Tablet iPad Pro", category := "Electronics",
      quantity := 3, threshold := 5, severity := "low",
      message := "Stock below threshold", generatedAt := 0 },
    { productId := 12, name := "Impresora Láser", category := "Office Equipment",
      quantity := 2, threshold := 5, severity := "high",
      message := "Critical stock level", generatedAt := 0 },
    { productId := 13, name := "Webcam HD", category := "Electronics",
      quantity := 4, threshold := 5, severity := "low",
      message := "Stock below threshold", generatedAt := 0 },
    { productId := 14, name := "Disco Duro SSD", category := "Electronics",
      quantity := 1, threshold := 5, severity := "high",
      message := "Critical stock level", generatedAt := 0 },
    { productId := 15, name := "Router WiFi 6", category := "Electronics",
      quantity := 0, threshold := 5, severity := "critical",
      message := "Product out of stock", generatedAt := 0 } ]

/-- C7 counterexample: on the seed snapshot at threshold 5 the generator
returns the alerts of the five products with quantity < 5 (quantities 3, 2,
4, 1, 0), not four as the claim counts. -/
theorem C7_counterexample :
    ¬ ∃ alerts, GenerateAlertsWithConcurrency (Except.ok seedProducts) 5 0 =
      Except.ok alerts ∧ alerts.length = 4 := by
  rintro ⟨alerts, h, hlen⟩
  have h0 : GenerateAlertsWithConcurrency (Except.ok seedProducts) 5 0 =
      Except.ok seedAlerts := rfl
  rw [h0] at h
  injection h with h
  subst h
  exact absurd hlen (by decide)

/-- C7 (amended): on the seed snapshot at threshold 5 the generator returns
alerts for exactly the products with quantity < 5 — five of them — with all
15 products evaluated. -/
theorem C7_seed_snapshot :
    GenerateAlertsWithConcurrency (Except.ok seedProducts) 5 0 = Except.ok seedAlerts ∧
    seedAlerts.length = 5 ∧
    (evaluationResults seedProducts 5 0).length = 15 ∧
    seedAlerts.map ProductAlert.productId =
      (seedProducts.filter (fun p => p.quantity < 5)).map Product.id := by
  exact ⟨rfl, rfl, rfl, by decide⟩

end Inventory
